import Mathlib

/-!
Verification of the Teacher Monitor record-keeping application.

The definitions below are a shallow embedding of the source files:
  src/utils/db.ts                       (table layout of the persistent store)
  src/components/SettingsModule.tsx     (export, import, clear-all)
  src/components/SupervisionModule.tsx  (form validation, save, filter/sort, bulk export)
  src/unnamed/part_002 and part_003     (book checking module)
  src/unnamed/part_005                  (work coverage module)
  src/utils/pdfUtils.ts                 (page composition)
  src/hooks/useLocalStorage.ts          (live query bridge)

The persistent store engine (Dexie) is external to the repository; its
operations (put, bulkAdd, clear, transaction) are modelled from the
contract stated in the specification, section 4.1: bulkAdd fails when any
id collides, and a transaction whose body throws rolls back every effect.
JavaScript strings, numbers and dates are modelled with String, Nat, Int
and a numeric encoding of calendar dates.
-/

namespace TeacherMonitor

/-! ## JavaScript string and number primitives -/

/-- Whether the character list `p` is an initial segment of `l`. -/
def leadsList : List Char → List Char → Bool
  | [], _ => true
  | _ :: _, [] => false
  | p :: ps, c :: cs => (p == c) && leadsList ps cs

/-- Whether `pat` occurs contiguously somewhere inside `l`. -/
def occursInList (pat : List Char) : List Char → Bool
  | [] => leadsList pat []
  | c :: cs => leadsList pat (c :: cs) || occursInList pat cs

/-- Model of the JavaScript expression `s.includes(pat)`. -/
def strIncludes (s pat : String) : Bool :=
  occursInList pat.toList s.toList

/-- The whitespace characters stripped by the JavaScript trim. -/
def isJsSpaceChar (c : Char) : Bool :=
  c = ' ' || c = '\t' || c = '\n' || c = '\r'

/-- Model of the JavaScript expression `s.trim()`. -/
def jsTrim (s : String) : String :=
  ⟨((s.toList.dropWhile isJsSpaceChar).reverse.dropWhile isJsSpaceChar).reverse⟩

/-- ASCII lowercasing of one character. -/
def jsCharToLower (c : Char) : Char :=
  if 65 ≤ c.toNat ∧ c.toNat ≤ 90 then Char.ofNat (c.toNat + 32) else c

/-- Model of the JavaScript expression `s.toLowerCase()`. -/
def jsToLower (s : String) : String :=
  ⟨s.toList.map jsCharToLower⟩

/-- Decimal digits of `n`, most significant first; the fuel argument only
bounds the recursion depth. -/
def natToStringAux : Nat → Nat → List Char
  | 0, _ => []
  | fuel + 1, n =>
    if n < 10 then [Nat.digitChar n]
    else natToStringAux fuel (n / 10) ++ [Nat.digitChar (n % 10)]

/-- Model of the JavaScript expression `Date.now().toString()` for a
timestamp `n`: the decimal representation of `n`. -/
def natToString (n : Nat) : String :=
  ⟨natToStringAux (n + 1) n⟩

/-- Interpret a list of decimal digit characters, rejecting empty or
non-digit input. -/
def digitsToNat? (cs : List Char) : Option Nat :=
  if cs.isEmpty then none
  else if cs.all Char.isDigit then
    some (cs.foldl (fun acc c => acc * 10 + (c.toNat - 48)) 0)
  else none

/-- Model of `new Date(s + "T00:00:00")` for a form date string in
YYYY-MM-DD shape: a numeric key that orders dates chronologically, or
`none` for a malformed string (the JavaScript invalid date, NaN time). -/
def parseDate (s : String) : Option Nat :=
  match s.splitOn "-" with
  | [y, m, d] =>
    match digitsToNat? y.toList, digitsToNat? m.toList, digitsToNat? d.toList with
    | some yv, some mv, some dv => some (yv * 10000 + mv * 100 + dv)
    | _, _, _ => none
  | _ => none

/-- Model of `dateA >= dateB` on JavaScript dates: comparisons against an
invalid date (NaN) are false. -/
def dateGE (a b : Option Nat) : Bool :=
  match a, b with
  | some x, some y => y ≤ x
  | _, _ => false

/-- Model of `dateA <= dateB` on JavaScript dates. -/
def dateLE (a b : Option Nat) : Bool :=
  match a, b with
  | some x, some y => x ≤ y
  | _, _ => false

/-- Model of the JavaScript expression `parseInt(s)` (radix 10): skip
leading whitespace, read an optional sign and then leading digits;
`none` models NaN. -/
def jsParseInt (s : String) : Option Int :=
  let cs := s.toList.dropWhile fun c => c = ' ' || c = '\t' || c = '\n' || c = '\r'
  let signAndRest : Int × List Char :=
    match cs with
    | '-' :: r => (-1, r)
    | '+' :: r => (1, r)
    | r => (1, r)
  let digits := signAndRest.2.takeWhile Char.isDigit
  if digits.isEmpty then none
  else some (signAndRest.1 * digits.foldl (fun acc c => acc * 10 + ((c.toNat : Int) - 48)) 0)

/-! ## Domain entities (src/unnamed/part_006, the types file) -/

structure Teacher where
  id : String
  name : String
  subjects : List String
  classes : List String
  deriving DecidableEq, Repr

structure SupervisionReport where
  id : String
  teacherName : String
  className : String
  subject : String
  date : String
  rating : Nat
  lessonObjectives : String
  teachingMethods : String
  learnerEngagement : String
  classroomManagement : String
  useOfTeachingAids : String
  assessmentAndFeedback : String
  strengths : String
  weaknesses : String
  recommendations : String
  deriving DecidableEq, Repr

structure BookCheckingReport where
  id : String
  teacherName : String
  className : String
  subject : String
  date : String
  booksChecked : String
  workCoverage : String
  markingRegularity : Nat
  feedbackQuality : Nat
  learnerNeatness : Nat
  exemplaryWorkNoted : String
  commonStudentErrors : String
  teacherResponseToFeedback : String
  comments : String
  deriving DecidableEq, Repr

structure WorkCoverageReport where
  id : String
  teacherName : String
  className : String
  subject : String
  date : String
  plannedTopics : String
  completedTopics : String
  pendingTopics : String
  remarks : String
  teacherSignature : String
  supervisorSignature : String
  deriving DecidableEq, Repr

structure AppSetting where
  key : String
  value : String
  deriving DecidableEq, Repr

/-! ## Persistent store (src/utils/db.ts plus the store contract of
specification section 4.1) -/

/-- The five tables of TeacherMonitorDB, each a list of records. -/
structure Store where
  teachers : List Teacher
  supervisionReports : List SupervisionReport
  bookCheckingReports : List BookCheckingReport
  workCoverageReports : List WorkCoverageReport
  settings : List AppSetting
  deriving DecidableEq, Repr

def emptyStore : Store :=
  ⟨[], [], [], [], []⟩

/-- The keys of `l` under the key function are pairwise distinct; the
invariant every real keyed table satisfies. -/
def keyNodup (key : α → String) (l : List α) : Prop :=
  (l.map key).Nodup

/-- Modelled from the spec: `bulkAdd(table, records)` of the store
contract (section 4.1) appends the batch and fails with a duplicate-key
error if any id collides. -/
def bulkAdd (key : α → String) (cur add : List α) : Except Unit (List α) :=
  if (cur.map key ++ add.map key).Nodup then .ok (cur ++ add) else .error ()

/-- Model of `Object.values(dbTyped).map(table => table.clear())`. -/
def clearAll (_s : Store) : Store :=
  emptyStore

/-- A parsed backup document; each top-level array may be absent. -/
structure Backup where
  teachers : Option (List Teacher)
  supervisionReports : Option (List SupervisionReport)
  bookCheckingReports : Option (List BookCheckingReport)
  workCoverageReports : Option (List WorkCoverageReport)
  settings : Option (List AppSetting)
  deriving DecidableEq, Repr

/-- Model of the guarded bulkAdd in the import body:
`if (data.table) await dbTyped.table.bulkAdd(data.table)`. -/
def addTable (key : α → String) (cur : List α) : Option (List α) → Except Unit (List α)
  | none => .ok cur
  | some l => bulkAdd key cur l

/-- The body handed to the transaction in handleImportData
(src/components/SettingsModule.tsx lines 117 to 125): clear all five
tables, then bulk-insert every array present in the backup. -/
def handleImportTxn (b : Backup) (s : Store) : Except Unit Store := do
  let s0 := clearAll s
  let t ← addTable Teacher.id s0.teachers b.teachers
  let sup ← addTable SupervisionReport.id s0.supervisionReports b.supervisionReports
  let bc ← addTable BookCheckingReport.id s0.bookCheckingReports b.bookCheckingReports
  let wc ← addTable WorkCoverageReport.id s0.workCoverageReports b.workCoverageReports
  let st ← addTable AppSetting.key s0.settings b.settings
  pure ⟨t, sup, bc, wc, st⟩

/-- Modelled from the spec: `transaction(mode, tables, body)` of the store
contract (section 4.1) runs the body atomically; if the body throws, all
effects are rolled back. The Boolean reports whether the body committed. -/
def runTransaction (s : Store) (body : Store → Except Unit Store) : Store × Bool :=
  match body s with
  | .ok s2 => (s2, true)
  | .error _ => (s, false)

/-- handleImportData (src/components/SettingsModule.tsx lines 102 to 137):
the argument is the result of JSON.parse on the chosen file, `none` when
parsing threw. The Boolean reports whether the import succeeded. -/
def handleImportData (parsed : Option Backup) (s : Store) : Store × Bool :=
  match parsed with
  | none => (s, false)
  | some b => runTransaction s (handleImportTxn b)

/-- handleExportData (src/components/SettingsModule.tsx lines 76 to 100):
the backup document holds all five tables. -/
def handleExportData (s : Store) : Backup :=
  ⟨some s.teachers, some s.supervisionReports, some s.bookCheckingReports,
   some s.workCoverageReports, some s.settings⟩

/-- Two tables hold the same set of records. -/
def tableSetEq (t1 t2 : List α) : Prop :=
  ∀ x, x ∈ t1 ↔ x ∈ t2

/-- Modelled from the spec: `put(table, record)` of the store contract
(section 4.1) is an insert-or-replace keyed on the id: an existing record
with the same key is replaced in place, otherwise the record is added. -/
def putById (key : α → String) (t : List α) (r : α) : List α :=
  if t.any (fun x => key x == key r) then
    t.map fun x => if key x == key r then r else x
  else t ++ [r]

/-- handleSave (src/components/SupervisionModule.tsx lines 307 to 311):
`dbTyped.supervisionReports.put(report)`. -/
def handleSave (t : List SupervisionReport) (r : SupervisionReport) : List SupervisionReport :=
  putById SupervisionReport.id t r

/-! ## Supervision form (src/components/SupervisionModule.tsx) -/

/-- The emptyForm constant of the supervision module (line 10). -/
def emptySupervisionForm : SupervisionReport :=
  ⟨"", "", "", "", "", 0, "", "", "", "", "", "", "", "", ""⟩

/-- validateForm (src/components/SupervisionModule.tsx lines 36 to 53):
the names of the fields that received an error message, in source order. -/
def validateSupervisionForm (f : SupervisionReport) : List String :=
  (if jsTrim f.teacherName = "" then ["teacherName"] else []) ++
  (if jsTrim f.className = "" then ["className"] else []) ++
  (if jsTrim f.subject = "" then ["subject"] else []) ++
  (if f.date = "" then ["date"] else []) ++
  (if jsTrim f.lessonObjectives = "" then ["lessonObjectives"] else []) ++
  (if jsTrim f.teachingMethods = "" then ["teachingMethods"] else []) ++
  (if jsTrim f.learnerEngagement = "" then ["learnerEngagement"] else []) ++
  (if jsTrim f.classroomManagement = "" then ["classroomManagement"] else []) ++
  (if jsTrim f.useOfTeachingAids = "" then ["useOfTeachingAids"] else []) ++
  (if jsTrim f.assessmentAndFeedback = "" then ["assessmentAndFeedback"] else []) ++
  (if jsTrim f.strengths = "" then ["strengths"] else []) ++
  (if jsTrim f.weaknesses = "" then ["weaknesses"] else []) ++
  (if jsTrim f.recommendations = "" then ["recommendations"] else [])

/-- handleSubmit of the supervision form (lines 55 to 62): on passing
validation the record is handed to onSave with
`id: formData.id || Date.now().toString()`; otherwise nothing is saved. -/
def supervisionHandleSubmit (f : SupervisionReport) (now : Nat) : Option SupervisionReport :=
  if validateSupervisionForm f = [] then
    some { f with id := if f.id = "" then natToString now else f.id }
  else none

/-- validateForm of the book checking form (src/unnamed/part_003 lines 37
to 50). -/
def validateBookCheckingForm (f : BookCheckingReport) : List String :=
  (if jsTrim f.teacherName = "" then ["teacherName"] else []) ++
  (if jsTrim f.className = "" then ["className"] else []) ++
  (if jsTrim f.subject = "" then ["subject"] else []) ++
  (if f.date = "" then ["date"] else []) ++
  (if (jsTrim f.booksChecked == "" ||
      (match jsParseInt f.booksChecked with | some n => decide (n ≤ 0) | none => false))
   then ["booksChecked"] else []) ++
  (if f.markingRegularity = 0 then ["markingRegularity"] else []) ++
  (if f.feedbackQuality = 0 then ["feedbackQuality"] else []) ++
  (if f.learnerNeatness = 0 then ["learnerNeatness"] else [])

/-- handleSubmit of the book checking form (src/unnamed/part_003 lines 52
to 59). -/
def bookCheckingHandleSubmit (f : BookCheckingReport) (now : Nat) : Option BookCheckingReport :=
  if validateBookCheckingForm f = [] then
    some { f with id := if f.id = "" then natToString now else f.id }
  else none

/-- validateForm of the work coverage form (src/unnamed/part_005 lines 37
to 48). -/
def validateWorkCoverageForm (f : WorkCoverageReport) : List String :=
  (if jsTrim f.teacherName = "" then ["teacherName"] else []) ++
  (if jsTrim f.className = "" then ["className"] else []) ++
  (if jsTrim f.subject = "" then ["subject"] else []) ++
  (if f.date = "" then ["date"] else []) ++
  (if jsTrim f.plannedTopics = "" then ["plannedTopics"] else []) ++
  (if jsTrim f.completedTopics = "" then ["completedTopics"] else []) ++
  (if f.teacherSignature = "" then ["teacherSignature"] else []) ++
  (if f.supervisorSignature = "" then ["supervisorSignature"] else [])

/-- handleSubmit of the work coverage form (src/unnamed/part_005 lines 51
to 58). -/
def workCoverageHandleSubmit (f : WorkCoverageReport) (now : Nat) : Option WorkCoverageReport :=
  if validateWorkCoverageForm f = [] then
    some { f with id := if f.id = "" then natToString now else f.id }
  else none

/-! ## List filtering and sorting (src/components/SupervisionModule.tsx
lines 327 to 357) -/

/-- The search predicate: case-insensitive substring match against the
teacher name or the subject. -/
def matchesSearch (q : String) (r : SupervisionReport) : Bool :=
  strIncludes (jsToLower r.teacherName) (jsToLower q) ||
  strIncludes (jsToLower r.subject) (jsToLower q)

/-- Numeric sort key of the date of a report; an unparsable date gets
key 0. -/
def dateKey (r : SupervisionReport) : Nat :=
  (parseDate r.date).getD 0

/-- The sort step of filteredAndSortedReports: a stable sort under the
comparator selected by the sortBy value, defaulting to date descending. -/
def sortReports (sortBy : String) (l : List SupervisionReport) : List SupervisionReport :=
  if sortBy = "date-asc" then l.mergeSort fun a b => decide (dateKey a ≤ dateKey b)
  else if sortBy = "teacher-asc" then l.mergeSort fun a b => decide (a.teacherName ≤ b.teacherName)
  else l.mergeSort fun a b => decide (dateKey b ≤ dateKey a)

/-- filteredAndSortedReports (src/components/SupervisionModule.tsx lines
327 to 357): the search filter, then the start date filter, then the end
date filter, then the sort. -/
def filteredAndSortedReports (reports : List SupervisionReport)
    (searchQuery filterStartDate filterEndDate sortBy : String) : List SupervisionReport :=
  let f1 := if searchQuery ≠ "" then reports.filter (matchesSearch searchQuery) else reports
  let f2 := if filterStartDate ≠ "" then
      f1.filter (fun r => dateGE (parseDate r.date) (parseDate filterStartDate))
    else f1
  let f3 := if filterEndDate ≠ "" then
      f2.filter (fun r => dateLE (parseDate r.date) (parseDate filterEndDate))
    else f2
  sortReports sortBy f3

/-- The filter predicate as the specification states it: keep a report iff
the search query (when set) matches teacher name or subject
case-insensitively, and the date lies within the inclusive range bounded
by whichever of the two filter dates are set. -/
def keepReport (searchQuery filterStartDate filterEndDate : String)
    (r : SupervisionReport) : Bool :=
  (searchQuery == "" || matchesSearch searchQuery r) &&
  (filterStartDate == "" || dateGE (parseDate r.date) (parseDate filterStartDate)) &&
  (filterEndDate == "" || dateLE (parseDate r.date) (parseDate filterEndDate))

/-- The displayed list as the specification states it: one filter pass,
then the sort. -/
def displayedListSpec (reports : List SupervisionReport)
    (searchQuery filterStartDate filterEndDate sortBy : String) : List SupervisionReport :=
  sortReports sortBy (reports.filter (keepReport searchQuery filterStartDate filterEndDate))

/-! ## PDF composition (src/utils/pdfUtils.ts) -/

/-- A captured canvas: pixel dimensions of the rendered region. -/
structure Canvas where
  width : ℚ
  height : ℚ
  deriving DecidableEq, Repr

/-- The placement of one image on one page, in millimetres. -/
structure Placement where
  x : ℚ
  y : ℚ
  w : ℚ
  h : ℚ
  deriving DecidableEq, Repr

/-- A4 portrait page width in millimetres. -/
def pdfPageWidth : ℚ := 210

/-- A4 portrait page height in millimetres. -/
def pdfPageHeight : ℚ := 297

/-- The scaling computation shared by generatePdfDocument (lines 34 to 51)
and generateBulkPdfDocument (lines 78 to 93) of src/utils/pdfUtils.ts. -/
def placeImage (c : Canvas) : Placement :=
  let ratio := c.width / c.height
  let imgWidth := pdfPageWidth
  let imgHeight := imgWidth / ratio
  if pdfPageHeight < imgHeight then
    { x := (pdfPageWidth - pdfPageHeight * ratio) / 2, y := 0,
      w := pdfPageHeight * ratio, h := pdfPageHeight }
  else
    { x := (pdfPageWidth - imgWidth) / 2, y := 0, w := imgWidth, h := imgHeight }

/-- The placement as the specification states it: fill the page width with
height proportional; if that height exceeds the page height, cap the
height and rescale the width by the aspect ratio; centre horizontally and
top-align. -/
def placeImageSpec (w h : ℚ) : Placement :=
  let widthFillHeight := pdfPageWidth * h / w
  if pdfPageHeight < widthFillHeight then
    { x := (pdfPageWidth - pdfPageHeight * w / h) / 2, y := 0,
      w := pdfPageHeight * w / h, h := pdfPageHeight }
  else
    { x := (pdfPageWidth - pdfPageWidth) / 2, y := 0,
      w := pdfPageWidth, h := widthFillHeight }

/-- generatePdfDocument (src/utils/pdfUtils.ts lines 21 to 52): a failed
capture produces no document, otherwise one page holding the placed
image. A page is `none` while still blank. -/
def generatePdfDocument (capture : Option Canvas) : Option (List (Option Placement)) :=
  match capture with
  | none => none
  | some c => some [some (placeImage c)]

/-- Replace the last page of a document, modelling pdf.addImage targeting
the current page. -/
def setLastPage (pages : List (Option Placement)) (p : Option Placement) :
    List (Option Placement) :=
  pages.dropLast ++ [p]

/-- The loop of generateBulkPdfDocument (src/utils/pdfUtils.ts lines 68 to
95): a failed capture is skipped; a successful one first appends a page
when its index is positive, then draws onto the last page. -/
def bulkPdfLoop : Nat → List (Option Canvas) → List (Option Placement) → List (Option Placement)
  | _, [], pages => pages
  | i, none :: rest, pages => bulkPdfLoop (i + 1) rest pages
  | i, some c :: rest, pages =>
    let pages1 := if 0 < i then pages ++ [none] else pages
    bulkPdfLoop (i + 1) rest (setLastPage pages1 (some (placeImage c)))

/-- generateBulkPdfDocument (src/utils/pdfUtils.ts lines 55 to 98): an
empty id list produces no document; otherwise the document starts with
one blank page and the loop runs over the captures. -/
def generateBulkPdfDocument (captures : List (Option Canvas)) :
    Option (List (Option Placement)) :=
  if captures.isEmpty then none
  else some (bulkPdfLoop 0 captures [none])

/-- The outcome of pressing the bulk export button. -/
inductive BulkExportAction where
  | rejected (msg : String)
  | started
  deriving DecidableEq, Repr

/-- handleBulkExport (src/components/SupervisionModule.tsx lines 359 to
365): an empty filtered list is rejected with an alert, otherwise the
export flag is raised. -/
def handleBulkExport (filtered : List SupervisionReport) : BulkExportAction :=
  if filtered.length = 0 then .rejected "No reports to export." else .started

/-! ## Live query bridge (src/hooks/useLocalStorage.ts) -/

/-- One delivery of the live query subscription: either a fresh result of
the read function, or an error raised by a re-invocation that threw. -/
inductive LiveQueryEvent (T : Type) where
  | next (result : T)
  | err (msg : String)

/-- The subscription handlers of useLiveQuery (lines 31 to 34): next
stores the result, error only logs. The state is the current data
together with the log. -/
def liveQueryStep (state : Option T × List String) (e : LiveQueryEvent T) :
    Option T × List String :=
  match e with
  | .next r => (some r, state.2)
  | .err m => (state.1, state.2 ++ [m])

/-- The observable state of useLiveQuery after a sequence of deliveries,
starting from the initial undefined data and an empty log. -/
def runLiveQuery (events : List (LiveQueryEvent T)) : Option T × List String :=
  events.foldl liveQueryStep (none, [])

/-! ## Helper lemmas -/

theorem natToStringAux_ne_nil (fuel n : Nat) : natToStringAux (fuel + 1) n ≠ [] := by
  simp only [natToStringAux]
  split <;> simp

theorem natToString_ne_empty (n : Nat) : natToString n ≠ "" := by
  intro h
  exact natToStringAux_ne_nil n n (congrArg String.data h)

theorem submitId_spec (fid : String) (now : Nat) :
    (if fid = "" then natToString now else fid) ≠ "" ∧
    (fid = "" → (if fid = "" then natToString now else fid) = natToString now) ∧
    (fid ≠ "" → (if fid = "" then natToString now else fid) = fid) := by
  by_cases h : fid = "" <;> simp [h, natToString_ne_empty]

theorem bulkAdd_nil_ok (key : α → String) (l : List α) (h : keyNodup key l) :
    bulkAdd key [] l = .ok l := by
  rw [keyNodup] at h
  simp [bulkAdd, h]

theorem putById_cons_ne (key : α → String) (x : α) (xs : List α) (r : α)
    (hx : ¬ key x = key r) :
    putById key (x :: xs) r = x :: putById key xs r := by
  by_cases ha : xs.any (fun y => key y == key r) <;>
    simp [putById, hx, ha]

theorem putById_filter_eq (key : α → String) (t : List α) (r : α)
    (h : keyNodup key t) :
    (putById key t r).filter (fun x => key x == key r) = [r] := by
  induction t with
  | nil => simp [putById]
  | cons x xs ih =>
    rw [keyNodup, List.map_cons, List.nodup_cons] at h
    obtain ⟨hx, hxs⟩ := h
    by_cases hkey : key x = key r
    · have hne : ∀ y ∈ xs, key y ≠ key r := by
        intro y hy hc
        exact hx (by rw [hkey, ← hc]; exact List.mem_map_of_mem key hy)
      have hput : putById key (x :: xs) r =
          r :: xs.map (fun y => if key y == key r then r else y) := by
        simp [putById, hkey]
      have hrest : (xs.map (fun y => if key y == key r then r else y)).filter
          (fun z => key z == key r) = [] := by
        rw [List.filter_eq_nil_iff]
        intro z hz
        obtain ⟨y, hy, rfl⟩ := List.mem_map.mp hz
        simp [hne y hy]
      rw [hput, List.filter_cons_of_pos (by simp), hrest]
    · rw [putById_cons_ne key x xs r hkey, List.filter_cons_of_neg (by simp [hkey])]
      exact ih hxs

theorem putById_keyNodup (key : α → String) (t : List α) (r : α)
    (h : keyNodup key t) : keyNodup key (putById key t r) := by
  rw [keyNodup] at h ⊢
  rw [putById]
  split
  · rw [List.map_map]
    have : t.map (key ∘ fun x => if key x == key r then r else x) = t.map key := by
      apply List.map_congr_left
      intro y _
      by_cases hy : key y = key r
      · simp [hy]
      · simp [hy]
    rw [this]
    exact h
  · rename_i hany
    have hnot : key r ∉ t.map key := by
      intro hm
      obtain ⟨x, hxmem, he⟩ := List.mem_map.mp hm
      exact hany (List.any_eq_true.mpr ⟨x, hxmem, by simp [he]⟩)
    simp [List.nodup_append, h, hnot]

theorem sortReports_perm (sb : String) (l : List SupervisionReport) :
    (sortReports sb l).Perm l := by
  by_cases h1 : sb = "date-asc"
  · simp [sortReports, h1, List.mergeSort_perm]
  · by_cases h2 : sb = "teacher-asc" <;> simp [sortReports, h1, h2, List.mergeSort_perm]

theorem sortReports_sorted_dateAsc (l : List SupervisionReport) :
    (sortReports "date-asc" l).Pairwise fun a b => dateKey a ≤ dateKey b := by
  rw [sortReports, if_pos rfl]
  refine List.Pairwise.imp ?_ (List.sorted_mergeSort ?_ ?_ l)
  · intro a b hab; simpa using hab
  · intro a b c hab hbc; simp only [decide_eq_true_eq] at hab hbc ⊢; omega
  · intro a b; simpa using Nat.le_total (dateKey a) (dateKey b)

theorem sortReports_sorted_teacherAsc (l : List SupervisionReport) :
    (sortReports "teacher-asc" l).Pairwise fun a b => a.teacherName ≤ b.teacherName := by
  rw [sortReports, if_neg (by decide), if_pos rfl]
  refine List.Pairwise.imp ?_ (List.sorted_mergeSort ?_ ?_ l)
  · intro a b hab; simpa using hab
  · intro a b c hab hbc
    simp only [decide_eq_true_eq] at hab hbc ⊢
    exact le_trans hab hbc
  · intro a b; simpa using le_total a.teacherName b.teacherName

theorem sortReports_sorted_dateDesc (sb : String) (l : List SupervisionReport)
    (h1 : sb ≠ "date-asc") (h2 : sb ≠ "teacher-asc") :
    (sortReports sb l).Pairwise fun a b => dateKey b ≤ dateKey a := by
  rw [sortReports, if_neg h1, if_neg h2]
  refine List.Pairwise.imp ?_ (List.sorted_mergeSort ?_ ?_ l)
  · intro a b hab; simpa using hab
  · intro a b c hab hbc; simp only [decide_eq_true_eq] at hab hbc ⊢; omega
  · intro a b; simpa using Nat.le_total (dateKey b) (dateKey a)

theorem filter_ite_skip (c : String) (p : SupervisionReport → Bool)
    (l : List SupervisionReport) :
    (if c ≠ "" then l.filter p else l) = l.filter fun r => c == "" || p r := by
  by_cases h : c = ""
  · simp [h]
  · have hb : (c == "") = false := beq_eq_false_iff_ne.mpr h
    simp [h, hb]

theorem filteredAndSorted_eq_filter (reports : List SupervisionReport)
    (q sd ed sb : String) :
    filteredAndSortedReports reports q sd ed sb =
      sortReports sb (reports.filter (keepReport q sd ed)) := by
  simp only [filteredAndSortedReports, filter_ite_skip]
  simp only [List.filter_filter]
  apply congrArg (sortReports sb)
  apply List.filter_congr
  intro a _
  simp only [keepReport]
  cases q == "" || matchesSearch q a <;>
    cases sd == "" || dateGE (parseDate a.date) (parseDate sd) <;>
      cases ed == "" || dateLE (parseDate a.date) (parseDate ed) <;> rfl

theorem bulkPdfLoop_all_ok (cs : List Canvas) (i : Nat) (hi : 0 < i)
    (acc : List (Option Placement)) :
    bulkPdfLoop i (cs.map some) acc = acc ++ cs.map fun c => some (placeImage c) := by
  induction cs generalizing i acc with
  | nil => simp [bulkPdfLoop]
  | cons c rest ih =>
    simp only [List.map_cons, bulkPdfLoop, if_pos hi, setLastPage, List.dropLast_concat]
    rw [ih (i + 1) (Nat.succ_pos i)]
    simp

instance (key : α → String) (l : List α) : Decidable (keyNodup key l) :=
  List.nodupDecidable (l.map key)

/-! ## Sample data used by the witnesses -/

def sampleTeacherA : Teacher := ⟨"t1", "Alice", ["Math"], ["10A"]⟩

def sampleTeacherB : Teacher := ⟨"t2", "Bob", [], []⟩

def sampleSupReport : SupervisionReport :=
  ⟨"s1", "Alice", "10A", "Math", "2024-01-01", 3, "a", "b", "c", "d", "e", "f", "g", "h", "i"⟩

def supEditA : SupervisionReport :=
  ⟨"s2", "Bob", "9B", "English", "2024-03-01", 2, "p", "q", "r", "s", "t", "u", "v", "w", "x"⟩

def supEditB : SupervisionReport :=
  ⟨"s2", "Bob", "9C", "History", "2024-03-05", 4, "p2", "q2", "r2", "s2", "t2", "u2", "v2",
   "w2", "x2"⟩

def sampleStore : Store :=
  ⟨[sampleTeacherA, sampleTeacherB], [sampleSupReport], [], [], [⟨"schoolName", "Northwood"⟩]⟩

def dupTeacherBackup : Backup :=
  ⟨some [sampleTeacherA, ⟨"t1", "Imposter", [], []⟩], none, none, none, none⟩

def supFormSample : SupervisionReport :=
  ⟨"", "Alice", "10A", "Math", "2024-01-01", 3, "a", "b", "c", "d", "e", "f", "g", "h", "i"⟩

def supSavedSample : SupervisionReport :=
  ⟨"7", "Alice", "10A", "Math", "2024-01-01", 3, "a", "b", "c", "d", "e", "f", "g", "h", "i"⟩

def bookFormSample : BookCheckingReport :=
  ⟨"", "Alice", "10A", "Math", "2024-01-01", "20", "complete", 3, 4, 5, "e1", "e2", "e3", "c"⟩

def bookSavedSample : BookCheckingReport :=
  ⟨"7", "Alice", "10A", "Math", "2024-01-01", "20", "complete", 3, 4, 5, "e1", "e2", "e3", "c"⟩

def workFormSample : WorkCoverageReport :=
  ⟨"", "Alice", "10A", "Math", "2024-01-01", "t1", "t2", "t3", "rm", "sig1", "sig2"⟩

def workSavedSample : WorkCoverageReport :=
  ⟨"7", "Alice", "10A", "Math", "2024-01-01", "t1", "t2", "t3", "rm", "sig1", "sig2"⟩

def canvasSample : Canvas := ⟨100, 50⟩

/-! ## Claim theorems -/

/-- Claim C1: for every store state whose five tables are keyed without
duplicates, exporting all data to the backup document and then importing
that document into an empty store succeeds, and the resulting five tables
are set-equal to the tables at export time. -/
theorem export_import_round_trip (s : Store)
    (h1 : keyNodup Teacher.id s.teachers)
    (h2 : keyNodup SupervisionReport.id s.supervisionReports)
    (h3 : keyNodup BookCheckingReport.id s.bookCheckingReports)
    (h4 : keyNodup WorkCoverageReport.id s.workCoverageReports)
    (h5 : keyNodup AppSetting.key s.settings) :
    (handleImportData (some (handleExportData s)) emptyStore).2 = true ∧
    tableSetEq (handleImportData (some (handleExportData s)) emptyStore).1.teachers
      s.teachers ∧
    tableSetEq (handleImportData (some (handleExportData s)) emptyStore).1.supervisionReports
      s.supervisionReports ∧
    tableSetEq (handleImportData (some (handleExportData s)) emptyStore).1.bookCheckingReports
      s.bookCheckingReports ∧
    tableSetEq (handleImportData (some (handleExportData s)) emptyStore).1.workCoverageReports
      s.workCoverageReports ∧
    tableSetEq (handleImportData (some (handleExportData s)) emptyStore).1.settings
      s.settings := by
  have e : handleImportData (some (handleExportData s)) emptyStore =
      (⟨s.teachers, s.supervisionReports, s.bookCheckingReports,
        s.workCoverageReports, s.settings⟩, true) := by
    simp [handleImportData, runTransaction, handleImportTxn, handleExportData, clearAll,
      emptyStore, addTable, Bind.bind, Except.bind, Pure.pure, Except.pure,
      bulkAdd_nil_ok _ _ h1, bulkAdd_nil_ok _ _ h2, bulkAdd_nil_ok _ _ h3,
      bulkAdd_nil_ok _ _ h4, bulkAdd_nil_ok _ _ h5]
  rw [e]
  exact ⟨rfl, fun x => Iff.rfl, fun x => Iff.rfl, fun x => Iff.rfl,
    fun x => Iff.rfl, fun x => Iff.rfl⟩

/-- Witness for claim C1 at a concrete populated store. -/
theorem export_import_round_trip_witness :
    (handleImportData (some (handleExportData sampleStore)) emptyStore).2 = true ∧
    tableSetEq (handleImportData (some (handleExportData sampleStore)) emptyStore).1.teachers
      sampleStore.teachers ∧
    tableSetEq
      (handleImportData (some (handleExportData sampleStore)) emptyStore).1.supervisionReports
      sampleStore.supervisionReports ∧
    tableSetEq
      (handleImportData (some (handleExportData sampleStore)) emptyStore).1.bookCheckingReports
      sampleStore.bookCheckingReports ∧
    tableSetEq
      (handleImportData (some (handleExportData sampleStore)) emptyStore).1.workCoverageReports
      sampleStore.workCoverageReports ∧
    tableSetEq (handleImportData (some (handleExportData sampleStore)) emptyStore).1.settings
      sampleStore.settings :=
  export_import_round_trip sampleStore (by decide) (by decide) (by decide) (by decide)
    (by decide)

/-- Claim C2: when the import fails, either because parsing produced
nothing or because the transaction body failed, the store is left exactly
as it was, with no partial writes. -/
theorem failed_import_preserves_store (parsed : Option Backup) (s : Store)
    (h : (handleImportData parsed s).2 = false) :
    (handleImportData parsed s).1 = s := by
  cases parsed with
  | none => rfl
  | some b =>
    simp only [handleImportData, runTransaction] at h ⊢
    cases hb : handleImportTxn b s with
    | ok s2 => rw [hb] at h; simp at h
    | error e => rfl

/-- Witness for claim C2: importing a backup holding two teachers with the
same id fails and leaves the populated store untouched. -/
theorem failed_import_preserves_store_witness :
    (handleImportData (some dupTeacherBackup) sampleStore).1 = sampleStore :=
  failed_import_preserves_store (some dupTeacherBackup) sampleStore (by decide)

/-- Claim C3: the displayed report list equals sort(filter(reports)):
one filtering pass keeping a report iff the search query (when set)
case-insensitively matches the teacher name or the subject and the date
lies within the inclusive range given by the set boundary dates, followed
by a sort under the selected key: date ascending, teacher name ascending,
or date descending by default. -/
theorem displayed_list_eq_sort_filter (reports : List SupervisionReport)
    (q sd ed sb : String) :
    filteredAndSortedReports reports q sd ed sb = displayedListSpec reports q sd ed sb ∧
    (filteredAndSortedReports reports q sd ed sb).Perm
      (reports.filter (keepReport q sd ed)) ∧
    (sb = "date-asc" → (filteredAndSortedReports reports q sd ed sb).Pairwise
      fun a b => dateKey a ≤ dateKey b) ∧
    (sb = "teacher-asc" → (filteredAndSortedReports reports q sd ed sb).Pairwise
      fun a b => a.teacherName ≤ b.teacherName) ∧
    (sb ≠ "date-asc" → sb ≠ "teacher-asc" →
      (filteredAndSortedReports reports q sd ed sb).Pairwise
        fun a b => dateKey b ≤ dateKey a) := by
  have e := filteredAndSorted_eq_filter reports q sd ed sb
  refine ⟨e, ?_, ?_, ?_, ?_⟩
  · rw [e]; exact sortReports_perm sb _
  · intro hsb; subst hsb; rw [e]; exact sortReports_sorted_dateAsc _
  · intro hsb; subst hsb; rw [e]; exact sortReports_sorted_teacherAsc _
  · intro hs1 hs2; rw [e]; exact sortReports_sorted_dateDesc sb _ hs1 hs2

/-- Witness for claim C3 at concrete inputs, discharging the date
ascending hypothesis. -/
theorem displayed_list_eq_sort_filter_witness :
    filteredAndSortedReports [sampleSupReport] "" "" "" "date-asc" =
      displayedListSpec [sampleSupReport] "" "" "" "date-asc" ∧
    (filteredAndSortedReports [sampleSupReport] "" "" "" "date-asc").Pairwise
      (fun a b => dateKey a ≤ dateKey b) :=
  ⟨(displayed_list_eq_sort_filter [sampleSupReport] "" "" "" "date-asc").1,
   (displayed_list_eq_sort_filter [sampleSupReport] "" "" "" "date-asc").2.2.1 rfl⟩

/-- Claim C4: upserting the same report id twice leaves exactly one record
for that id, holding the field values of the second save. -/
theorem save_twice_one_record (t : List SupervisionReport) (r1 r2 : SupervisionReport)
    (hn : keyNodup SupervisionReport.id t) (hid : r1.id = r2.id) :
    (handleSave (handleSave t r1) r2).filter (fun x => x.id == r2.id) = [r2] ∧
    ((handleSave (handleSave t r1) r2).filter (fun x => x.id == r2.id)).length = 1 := by
  have h1 : keyNodup SupervisionReport.id (handleSave t r1) :=
    putById_keyNodup SupervisionReport.id t r1 hn
  have h2 : (handleSave (handleSave t r1) r2).filter (fun x => x.id == r2.id) = [r2] :=
    putById_filter_eq SupervisionReport.id (handleSave t r1) r2 h1
  exact ⟨h2, by rw [h2]; rfl⟩

/-- Witness for claim C4: two saves of id s2 into a one-report table. -/
theorem save_twice_one_record_witness :
    (handleSave (handleSave [sampleSupReport] supEditA) supEditB).filter
      (fun x => x.id == supEditB.id) = [supEditB] ∧
    ((handleSave (handleSave [sampleSupReport] supEditA) supEditB).filter
      (fun x => x.id == supEditB.id)).length = 1 :=
  save_twice_one_record [sampleSupReport] supEditA supEditB (by decide) (by decide)

/-- Claim C5 counterexample: the all-empty supervision form with rating 0
produces thirteen required-field errors, not eleven. -/
theorem empty_form_not_eleven_errors :
    (validateSupervisionForm emptySupervisionForm).length = 13 ∧
    (validateSupervisionForm emptySupervisionForm).length ≠ 11 := by
  decide

/-- Claim C5 (amended): submitting the supervision form with rating 0 and
every text field empty fails validation with all thirteen required-field
errors reported simultaneously, the rating itself not being validated,
and no write occurs. -/
theorem empty_form_thirteen_errors_no_write (now : Nat) :
    validateSupervisionForm emptySupervisionForm =
      ["teacherName", "className", "subject", "date", "lessonObjectives", "teachingMethods",
       "learnerEngagement", "classroomManagement", "useOfTeachingAids",
       "assessmentAndFeedback", "strengths", "weaknesses", "recommendations"] ∧
    supervisionHandleSubmit emptySupervisionForm now = none := by
  constructor
  · decide
  · have h : validateSupervisionForm emptySupervisionForm ≠ [] := by decide
    simp [supervisionHandleSubmit, h]

/-- Claim C6: a captured image of positive width and height is placed on
the fixed portrait A4 page scaled to fill the page width, the height
capped to the page height with the width rescaled to keep the aspect
ratio, centred horizontally and top-aligned. -/
theorem single_page_placement (w h : ℚ) (hw : 0 < w) (hh : 0 < h) :
    placeImage ⟨w, h⟩ = placeImageSpec w h := by
  have k1 : pdfPageWidth / (w / h) = pdfPageWidth * h / w := div_div_eq_mul_div _ _ _
  have k2 : pdfPageHeight * (w / h) = pdfPageHeight * w / h := (mul_div_assoc _ _ _).symm
  simp only [placeImage, placeImageSpec, k1, k2]

/-- Witness for claim C6 at a 100 by 50 canvas. -/
theorem single_page_placement_witness :
    (0 : ℚ) < 100 ∧ (0 : ℚ) < 50 ∧ placeImage ⟨100, 50⟩ = placeImageSpec 100 50 :=
  ⟨by norm_num, by norm_num, single_page_placement 100 50 (by norm_num) (by norm_num)⟩

/-- Claim C7: when every capture of a non-empty input list succeeds, the
bulk document has exactly one page per input image, each scaled by the
same rule, in input order. -/
theorem bulk_pdf_one_page_per_image (cs : List Canvas) (h : cs ≠ []) :
    generateBulkPdfDocument (cs.map some) =
      some (cs.map fun c => some (placeImage c)) := by
  cases cs with
  | nil => exact absurd rfl h
  | cons c rest =>
    show generateBulkPdfDocument (some c :: rest.map some) = _
    rw [generateBulkPdfDocument, if_neg (by simp)]
    rw [show bulkPdfLoop 0 (some c :: rest.map some) [none] =
        bulkPdfLoop 1 (rest.map some) [some (placeImage c)] from by
      simp [bulkPdfLoop, setLastPage]]
    rw [bulkPdfLoop_all_ok rest 1 Nat.one_pos]
    simp

/-- Witness for claim C7 at a one-canvas input. -/
theorem bulk_pdf_one_page_per_image_witness :
    generateBulkPdfDocument ([canvasSample].map some) =
      some ([canvasSample].map fun c => some (placeImage c)) :=
  bulk_pdf_one_page_per_image [canvasSample] (by simp)

/-- Claim C8: when the filtered and sorted report list is empty, bulk
export is rejected with the no-reports signal, and multi-page composition
over an empty input list produces no document. -/
theorem empty_filtered_bulk_export_rejected (reports : List SupervisionReport)
    (q sd ed sb : String)
    (h : filteredAndSortedReports reports q sd ed sb = []) :
    handleBulkExport (filteredAndSortedReports reports q sd ed sb) =
      .rejected "No reports to export." ∧
    generateBulkPdfDocument ([] : List (Option Canvas)) = none := by
  refine ⟨?_, rfl⟩
  rw [h]
  rfl

/-- Witness for claim C8 at an empty store. -/
theorem empty_filtered_bulk_export_rejected_witness :
    handleBulkExport (filteredAndSortedReports [] "" "" "" "date-desc") =
      .rejected "No reports to export." ∧
    generateBulkPdfDocument ([] : List (Option Canvas)) = none :=
  empty_filtered_bulk_export_rejected [] "" "" "" "date-desc"
    (by simp [filteredAndSortedReports, sortReports])

/-- Claim C9: a live query subscription observes no value before the first
result arrives, and an error delivery is logged while leaving the
previously delivered result in place. -/
theorem live_query_initial_and_error_preserving (T : Type)
    (events : List (LiveQueryEvent T)) (m : String) :
    runLiveQuery ([] : List (LiveQueryEvent T)) = (none, []) ∧
    (runLiveQuery (events ++ [.err m])).1 = (runLiveQuery events).1 ∧
    (runLiveQuery (events ++ [.err m])).2 = (runLiveQuery events).2 ++ [m] := by
  refine ⟨rfl, ?_, ?_⟩ <;> simp [runLiveQuery, liveQueryStep]

/-- Claim C10: every record written through any of the three report forms
carries a non-empty id: an empty form id is replaced by the decimal
timestamp, any other id is kept unchanged. -/
theorem report_ids_never_empty (now : Nat) :
    (∀ f r, supervisionHandleSubmit f now = some r →
      r.id ≠ "" ∧ (f.id = "" → r.id = natToString now) ∧ (f.id ≠ "" → r.id = f.id)) ∧
    (∀ f r, bookCheckingHandleSubmit f now = some r →
      r.id ≠ "" ∧ (f.id = "" → r.id = natToString now) ∧ (f.id ≠ "" → r.id = f.id)) ∧
    (∀ f r, workCoverageHandleSubmit f now = some r →
      r.id ≠ "" ∧ (f.id = "" → r.id = natToString now) ∧ (f.id ≠ "" → r.id = f.id)) := by
  refine ⟨?_, ?_, ?_⟩
  · intro f r hr
    rw [supervisionHandleSubmit] at hr
    split at hr
    · cases hr; exact submitId_spec f.id now
    · exact Option.noConfusion hr
  · intro f r hr
    rw [bookCheckingHandleSubmit] at hr
    split at hr
    · cases hr; exact submitId_spec f.id now
    · exact Option.noConfusion hr
  · intro f r hr
    rw [workCoverageHandleSubmit] at hr
    split at hr
    · cases hr; exact submitId_spec f.id now
    · exact Option.noConfusion hr

/-- Witness for claim C10 applying all three modules at timestamp 7. -/
theorem report_ids_never_empty_witness :
    (supSavedSample.id ≠ "" ∧
      (supFormSample.id = "" → supSavedSample.id = natToString 7) ∧
      (supFormSample.id ≠ "" → supSavedSample.id = supFormSample.id)) ∧
    (bookSavedSample.id ≠ "" ∧
      (bookFormSample.id = "" → bookSavedSample.id = natToString 7) ∧
      (bookFormSample.id ≠ "" → bookSavedSample.id = bookFormSample.id)) ∧
    (workSavedSample.id ≠ "" ∧
      (workFormSample.id = "" → workSavedSample.id = natToString 7) ∧
      (workFormSample.id ≠ "" → workSavedSample.id = workFormSample.id)) :=
  ⟨(report_ids_never_empty 7).1 supFormSample supSavedSample (by decide),
   (report_ids_never_empty 7).2.1 bookFormSample bookSavedSample (by decide),
   (report_ids_never_empty 7).2.2 workFormSample workSavedSample (by decide)⟩

end TeacherMonitor
